import Mathlib

/-!
Shallow embedding of the BlueChat device-session connection manager
(`src/services/bluetoothService.ts`) together with the device-list
formatting performed by the scanner view (`src/components/DeviceScanner.tsx`).

Modelling decisions:
* JS strings used as chat payloads are Lean `String`s; the raw byte payloads
  of GATT notifications are `List Nat` (one `Nat` per byte).
* The opaque platform handles (`device.gatt` server, the two characteristic
  objects) are modelled as opaque `Nat` identifiers wrapped in `Option`,
  `none` standing for the JS `null` the source initialises the fields with.
* The platform (Web Bluetooth API) is an oracle `GattEnv` answering each
  `await`ed call with success or an error string; connect's protocol steps
  consult it in the source's textual order, and the trace of started steps
  is recorded explicitly.
* Callbacks are identified by opaque `Nat` tags; invoking a callback is
  recorded as an `Event` in the result rather than executed.
* `Math.random()`-driven choices in the simulated transport are passed in
  as explicit parameters (`coin`, `pick`).
* A JS object field that is never assigned (e.g. `status` on the fabricated
  scan entries) reads as `undefined`; such a field is modelled as an
  `Option` that is `none` when absent.
-/

namespace BlueChat

/-- Nordic UART service UUID from `src/types.ts`. -/
def UART_SERVICE_UUID : String := "6e400001-b5a3-f393-e0a9-e50e24dcca9e"

/-- UART write characteristic UUID from `src/types.ts`. -/
def UART_RX_CHAR_UUID : String := "6e400002-b5a3-f393-e0a9-e50e24dcca9e"

/-- UART notify characteristic UUID from `src/types.ts`. -/
def UART_TX_CHAR_UUID : String := "6e400003-b5a3-f393-e0a9-e50e24dcca9e"

/-- A platform device handle as returned by `navigator.bluetooth.requestDevice`:
`name` is `none` when the platform reports no name (JS `undefined`). -/
structure Device where
  id : String
  name : Option String
deriving Repr, DecidableEq

/-- One element of the array returned by `BluetoothService.scan`.  The raw JS
objects (both `MOCK_DEVICES` and the real-mode singleton) carry `id`, `name`
and `rssi`; a `status` property is never assigned by the service, so reading
it yields `undefined`, modelled as `status = none`. -/
structure ScanEntry where
  id : String
  name : String
  rssi : Int
  status : Option String := none
deriving Repr, DecidableEq

/-- `BluetoothDeviceDisplay` from `src/types.ts`, as produced by the scanner
view's formatting step. -/
structure BluetoothDeviceDisplay where
  id : String
  name : String
  rssi : Int
  status : String
deriving Repr, DecidableEq

/-- `MOCK_DEVICES` from `src/services/bluetoothService.ts` lines 13-17. -/
def MOCK_DEVICES : List ScanEntry :=
  [ { id := "mock-1", name := "iPhone 13 Pro (Sim)", rssi := -45 },
    { id := "mock-2", name := "Galaxy S23 (Sim)", rssi := -62 },
    { id := "mock-3", name := "ESP32_UART_DEVICE", rssi := -80 } ]

/-- `MOCK_RESPONSES` from `src/services/bluetoothService.ts` lines 19-25. -/
def MOCK_RESPONSES : List String :=
  [ "Привет! Связь стабильная.",
    "Данные получены.",
    "Это тестовое сообщение через Bluetooth симуляцию.",
    "Классный интерфейс!",
    "Офлайн чат работает отлично." ]

/-- An observable callback invocation: the message subscriber receiving a
decoded text, or the disconnect subscriber firing. -/
inductive Event where
  | msgDelivered (cb : Nat) (text : String)
  | disconnectFired (cb : Nat)
deriving Repr, DecidableEq

/-- The five protocol steps of `connectToDeviceObject`, in source order
(the two characteristic lookups form the single characteristic-resolution
step, as in the spec). -/
inductive Step where
  | openGatt
  | resolveService
  | resolveChars
  | enableNotify
  | registerHandler
deriving Repr, DecidableEq

/-- The mutable fields of the `BluetoothService` instance. -/
structure BTState where
  device : Option Device
  server : Option Nat
  rxCharacteristic : Option Nat
  txCharacteristic : Option Nat
  onMessageCallback : Option Nat
  onDisconnectCallback : Option Nat
  isSimulation : Bool
  /-- Whether `characteristicvaluechanged` has a registered listener
  (set by connect's final step; the source never removes it). -/
  valueListener : Bool
deriving Repr, DecidableEq

/-- The Web Bluetooth platform as an oracle: each `await`ed platform call
either yields a fresh opaque handle or throws (an error string). -/
structure GattEnv where
  gattConnect : Device → Except String Nat
  getPrimaryService : Nat → String → Except String Nat
  getCharacteristic : Nat → String → Except String Nat
  startNotifications : Nat → Except String Unit
  writeValue : Nat → List Nat → Except String Unit

deriving instance DecidableEq for Except

/-- Result of a connect attempt: the trace of protocol steps that were
started, the final field state, the value returned/thrown to the caller,
and the callback invocations that occurred along the way. -/
structure CResult where
  trace : List Step
  state : BTState
  result : Except String Unit
  events : List Event
deriving Repr, DecidableEq

/-- `BluetoothService.cleanup`: null out the four handle fields, then invoke
the disconnect subscriber if one is registered (the subscriber slots
themselves are not cleared by the source). -/
def cleanup (st : BTState) : BTState × List Event :=
  ({ st with device := none, server := none,
             rxCharacteristic := none, txCharacteristic := none },
   match st.onDisconnectCallback with
   | some cb => [Event.disconnectFired cb]
   | none => [])

/-- `BluetoothService.disconnect`: ask the platform to drop the GATT link if
one is live (no effect on the service's own fields), then run `cleanup`. -/
def disconnect (st : BTState) : BTState × List Event :=
  cleanup st

/-- `BluetoothService.handleDisconnect`, the `gattserverdisconnected`
(link-loss) listener: runs `cleanup`. -/
def handleDisconnect (st : BTState) : BTState × List Event :=
  cleanup st

/-- `BluetoothService.connectToDeviceObject`: the five-step connect protocol.
Each step consults the platform oracle in source order; a failure at any step
runs `disconnect()` on the fields assigned so far and re-throws the error. -/
def connectToDeviceObject (env : GattEnv) (st : BTState) (d : Device) : CResult :=
  let st0 : BTState := { st with device := some d }
  match env.gattConnect d with
  | .error e =>
      let c := disconnect st0
      { trace := [.openGatt], state := c.1, result := .error e, events := c.2 }
  | .ok server =>
    let st1 : BTState := { st0 with server := some server }
    match env.getPrimaryService server UART_SERVICE_UUID with
    | .error e =>
        let c := disconnect st1
        { trace := [.openGatt, .resolveService], state := c.1,
          result := .error e, events := c.2 }
    | .ok service =>
      match env.getCharacteristic service UART_RX_CHAR_UUID with
      | .error e =>
          let c := disconnect st1
          { trace := [.openGatt, .resolveService, .resolveChars], state := c.1,
            result := .error e, events := c.2 }
      | .ok rx =>
        let st2 : BTState := { st1 with rxCharacteristic := some rx }
        match env.getCharacteristic service UART_TX_CHAR_UUID with
        | .error e =>
            let c := disconnect st2
            { trace := [.openGatt, .resolveService, .resolveChars], state := c.1,
              result := .error e, events := c.2 }
        | .ok tx =>
          let st3 : BTState := { st2 with txCharacteristic := some tx }
          match env.startNotifications tx with
          | .error e =>
              let c := disconnect st3
              { trace := [.openGatt, .resolveService, .resolveChars, .enableNotify],
                state := c.1, result := .error e, events := c.2 }
          | .ok _ =>
            { trace := [.openGatt, .resolveService, .resolveChars,
                        .enableNotify, .registerHandler],
              state := { st3 with valueListener := true },
              result := .ok (), events := [] }

/-- `BluetoothService.connect(deviceId)`: in simulation mode it resolves after
a delay with no state change and no error path; in real mode it throws
"Устройство не выбрано (No Device Cache)" when no device handle is cached,
and otherwise connects to the cached device, ignoring `deviceId`. -/
def connect (env : GattEnv) (st : BTState) (deviceId : String) : CResult :=
  if st.isSimulation then
    { trace := [], state := st, result := .ok (), events := [] }
  else
    match st.device with
    | none =>
        { trace := [], state := st,
          result := .error "Устройство не выбрано (No Device Cache)", events := [] }
    | some d => connectToDeviceObject env st d

/-- `BluetoothService.onMessage`: overwrite the single message-subscriber slot. -/
def onMessage (st : BTState) (cb : Nat) : BTState :=
  { st with onMessageCallback := some cb }

/-- `BluetoothService.onDisconnect`: overwrite the single disconnect-subscriber slot. -/
def onDisconnect (st : BTState) (cb : Nat) : BTState :=
  { st with onDisconnectCallback := some cb }

/-- `BluetoothService.scan`: in simulation mode, resolve with `MOCK_DEVICES`;
in real mode, ask the platform picker (`pick` is the outcome of
`navigator.bluetooth.requestDevice`), cache the chosen device and return a
one-element descriptor list with `rssi := -50` and the placeholder name when
`device.name` is falsy (absent or empty). Picker errors are re-thrown. -/
def scan (st : BTState) (pick : Except String Device) :
    BTState × Except String (List ScanEntry) :=
  if st.isSimulation then
    (st, .ok MOCK_DEVICES)
  else
    match pick with
    | .error e => (st, .error e)
    | .ok d =>
        ({ st with device := some d },
         .ok [{ id := d.id,
                name := match d.name with
                        | some n => if n = "" then "Неизвестное устройство" else n
                        | none => "Неизвестное устройство",
                rssi := -50 }])

/-- The scanner view's formatting step (`src/components/DeviceScanner.tsx`):
 `{ id, name: d.name || placeholder, rssi: d.rssi, status: 'available' }`. -/
def formatDevice (d : ScanEntry) : BluetoothDeviceDisplay :=
  { id := d.id,
    name := if d.name = "" then "Неизвестное устройство" else d.name,
    rssi := d.rssi,
    status := "available" }

/-- UTF-8 encoding of a single Unicode code point, as performed by
`TextEncoder.encode` (one to four bytes). -/
def utf8EncodeChar (c : Nat) : List Nat :=
  if c < 128 then [c]
  else if c < 2048 then [192 + c / 64, 128 + c % 64]
  else if c < 65536 then [224 + c / 4096, 128 + c / 64 % 64, 128 + c % 64]
  else [240 + c / 262144, 128 + c / 4096 % 64, 128 + c / 64 % 64, 128 + c % 64]

/-- UTF-8 encoding of a code-point sequence. -/
def utf8Encode : List Nat → List Nat
  | [] => []
  | c :: cs => utf8EncodeChar c ++ utf8Encode cs

/-- Consume one UTF-8 continuation byte, shifting it into the partial code
point `hi`; fails unless the byte is in `0x80..0xBF`. -/
def utf8Cont1 (hi : Nat) : List Nat → Option (Nat × List Nat)
  | [] => none
  | b :: rest =>
      if 128 ≤ b ∧ b < 192 then some (hi * 64 + (b - 128), rest) else none

/-- Consume two UTF-8 continuation bytes. -/
def utf8Cont2 (hi : Nat) : List Nat → Option (Nat × List Nat)
  | [] => none
  | b :: rest =>
      if 128 ≤ b ∧ b < 192 then utf8Cont1 (hi * 64 + (b - 128)) rest else none

/-- Consume three UTF-8 continuation bytes. -/
def utf8Cont3 (hi : Nat) : List Nat → Option (Nat × List Nat)
  | [] => none
  | b :: rest =>
      if 128 ≤ b ∧ b < 192 then utf8Cont2 (hi * 64 + (b - 128)) rest else none

/-- Decode the first UTF-8-encoded code point of a byte sequence, returning
it with the remaining bytes; `none` on empty or ill-formed input. -/
def utf8DecodeOne : List Nat → Option (Nat × List Nat)
  | [] => none
  | b0 :: rest =>
    if b0 < 128 then some (b0, rest)
    else if b0 < 192 then none
    else if b0 < 224 then utf8Cont1 (b0 - 192) rest
    else if b0 < 240 then utf8Cont2 (b0 - 224) rest
    else utf8Cont3 (b0 - 240) rest

/-- Decode up to `fuel` code points from a UTF-8 byte sequence. -/
def utf8DecodeAux : Nat → List Nat → Option (List Nat)
  | _, [] => some []
  | 0, _ :: _ => none
  | fuel + 1, b0 :: rest =>
      match utf8DecodeOne (b0 :: rest) with
      | none => none
      | some (c, rest2) => (utf8DecodeAux fuel rest2).map (fun cs => c :: cs)

/-- UTF-8 decoding of a byte sequence to code points, as performed by
`new TextDecoder('utf-8').decode` on well-formed input (`none` models the
ill-formed case, which the source's non-fatal decoder patches with
replacement characters; no claim exercises it).  Each decoded code point
consumes at least one byte, so the input's length is enough fuel. -/
def utf8Decode (l : List Nat) : Option (List Nat) :=
  utf8DecodeAux l.length l

/-- `new TextEncoder().encode(text)`: the UTF-8 bytes of a string. -/
def strEncode (s : String) : List Nat :=
  utf8Encode (s.data.map Char.toNat)

/-- `new TextDecoder('utf-8').decode(value)` on well-formed input. -/
def strDecode (bs : List Nat) : Option String :=
  (utf8Decode bs).map (fun cs => String.mk (cs.map Char.ofNat))

/-- `BluetoothService.send(text)`: in simulation mode it always resolves and,
when the random draw (`coin`, modelling `Math.random() > 0.3`) succeeds and a
message subscriber is registered, delivers a fabricated reply (`pick` models
`Math.floor(Math.random() * MOCK_RESPONSES.length)`); in real mode it throws
"Нет соединения" when no write characteristic is held, and otherwise writes
the UTF-8 encoding of `text` on it. -/
def send (env : GattEnv) (st : BTState) (text : String) (coin : Bool) (pick : Nat) :
    BTState × Except String Unit × List Event :=
  if st.isSimulation then
    (st, .ok (),
     if coin then
       match st.onMessageCallback with
       | some cb =>
           [Event.msgDelivered cb (MOCK_RESPONSES.getD (pick % MOCK_RESPONSES.length) "")]
       | none => []
     else [])
  else
    match st.rxCharacteristic with
    | none => (st, .error "Нет соединения", [])
    | some rx =>
        match env.writeValue rx (strEncode text) with
        | .ok _ => (st, .ok (), [])
        | .error e => (st, .error e, [])

/-- `BluetoothService.handleCharacteristicValueChanged`: decode the
notification's bytes as UTF-8 text and pass it to the message subscriber if
one is registered. -/
def handleCharacteristicValueChanged (st : BTState) (bytes : List Nat) : List Event :=
  match strDecode bytes with
  | some text =>
      match st.onMessageCallback with
      | some cb => [Event.msgDelivered cb text]
      | none => []
  | none => []

/-- A freshly constructed `BluetoothService` (constructor state): all handle
and callback fields null, with the given simulation flag. -/
def initState (sim : Bool) : BTState :=
  { device := none, server := none, rxCharacteristic := none,
    txCharacteristic := none, onMessageCallback := none,
    onDisconnectCallback := none, isSimulation := sim, valueListener := false }

/-- A concrete platform oracle on which every call succeeds. -/
def okEnv : GattEnv :=
  { gattConnect := fun _ => .ok 1,
    getPrimaryService := fun _ _ => .ok 2,
    getCharacteristic := fun _ _ => .ok 3,
    startNotifications := fun _ => .ok (),
    writeValue := fun _ _ => .ok () }

/-- A concrete platform oracle whose characteristic resolution (protocol
step 3) throws, all earlier steps succeeding. -/
def step3FailEnv : GattEnv :=
  { gattConnect := fun _ => .ok 1,
    getPrimaryService := fun _ _ => .ok 2,
    getCharacteristic := fun _ _ => .error "NotFoundError",
    startNotifications := fun _ => .ok (),
    writeValue := fun _ _ => .ok () }

/-- The full protocol-step sequence of a successful connect attempt. -/
def connectSteps : List Step :=
  [.openGatt, .resolveService, .resolveChars, .enableNotify, .registerHandler]

/-- Register a sequence of message subscribers, in order. -/
def onMessageSeq (st : BTState) (cbs : List Nat) : BTState :=
  cbs.foldl onMessage st

/-- Register a sequence of disconnect subscribers, in order. -/
def onDisconnectSeq (st : BTState) (cbs : List Nat) : BTState :=
  cbs.foldl onDisconnect st

theorem utf8EncodeChar_ne_nil (c : Nat) : utf8EncodeChar c ≠ [] := by
  unfold utf8EncodeChar
  split
  · simp
  · split
    · simp
    · split <;> simp

theorem utf8DecodeOne_encodeChar (c : Nat) (h : c < 1114112) (rest : List Nat) :
    utf8DecodeOne (utf8EncodeChar c ++ rest) = some (c, rest) := by
  by_cases h1 : c < 128
  · simp [utf8EncodeChar, utf8DecodeOne, h1]
  · by_cases h2 : c < 2048
    · simp only [utf8EncodeChar, if_neg h1, if_pos h2, List.cons_append, List.nil_append,
        utf8DecodeOne]
      rw [if_neg (by omega), if_neg (by omega), if_pos (by omega)]
      simp only [utf8Cont1]
      rw [if_pos (by constructor <;> omega)]
      have hv : (192 + c / 64 - 192) * 64 + (128 + c % 64 - 128) = c := by omega
      rw [hv]
    · by_cases h3 : c < 65536
      · simp only [utf8EncodeChar, if_neg h1, if_neg h2, if_pos h3, List.cons_append,
          List.nil_append, utf8DecodeOne]
        rw [if_neg (by omega), if_neg (by omega), if_neg (by omega), if_pos (by omega)]
        simp only [utf8Cont2]
        rw [if_pos (by constructor <;> omega)]
        simp only [utf8Cont1]
        rw [if_pos (by constructor <;> omega)]
        have hv : ((224 + c / 4096 - 224) * 64 + (128 + c / 64 % 64 - 128)) * 64 +
            (128 + c % 64 - 128) = c := by omega
        rw [hv]
      · simp only [utf8EncodeChar, if_neg h1, if_neg h2, if_neg h3, List.cons_append,
          List.nil_append, utf8DecodeOne]
        rw [if_neg (by omega), if_neg (by omega), if_neg (by omega), if_neg (by omega)]
        simp only [utf8Cont3]
        rw [if_pos (by constructor <;> omega)]
        simp only [utf8Cont2]
        rw [if_pos (by constructor <;> omega)]
        simp only [utf8Cont1]
        rw [if_pos (by constructor <;> omega)]
        have hv : (((240 + c / 262144 - 240) * 64 + (128 + c / 4096 % 64 - 128)) * 64 +
            (128 + c / 64 % 64 - 128)) * 64 + (128 + c % 64 - 128) = c := by omega
        rw [hv]


theorem utf8Cont1_length {hi : Nat} {l rest : List Nat} {c : Nat}
    (h : utf8Cont1 hi l = some (c, rest)) : rest.length < l.length := by
  cases l with
  | nil => simp [utf8Cont1] at h
  | cons b t =>
      simp only [utf8Cont1] at h
      split at h
      · simp only [Option.some.injEq, Prod.mk.injEq] at h
        obtain ⟨-, rfl⟩ := h
        simp
      · simp at h

theorem utf8Cont2_length {hi : Nat} {l rest : List Nat} {c : Nat}
    (h : utf8Cont2 hi l = some (c, rest)) : rest.length < l.length := by
  cases l with
  | nil => simp [utf8Cont2] at h
  | cons b t =>
      simp only [utf8Cont2] at h
      split at h
      · have := utf8Cont1_length h
        simp only [List.length_cons]
        omega
      · simp at h

theorem utf8Cont3_length {hi : Nat} {l rest : List Nat} {c : Nat}
    (h : utf8Cont3 hi l = some (c, rest)) : rest.length < l.length := by
  cases l with
  | nil => simp [utf8Cont3] at h
  | cons b t =>
      simp only [utf8Cont3] at h
      split at h
      · have := utf8Cont2_length h
        simp only [List.length_cons]
        omega
      · simp at h

theorem utf8DecodeOne_length {l rest : List Nat} {c : Nat}
    (h : utf8DecodeOne l = some (c, rest)) : rest.length < l.length := by
  cases l with
  | nil => simp [utf8DecodeOne] at h
  | cons b t =>
      simp only [utf8DecodeOne] at h
      split at h
      · simp only [Option.some.injEq, Prod.mk.injEq] at h
        obtain ⟨-, rfl⟩ := h
        simp
      · split at h
        · simp at h
        · split at h
          · have := utf8Cont1_length h
            simp only [List.length_cons]
            omega
          · split at h
            · have := utf8Cont2_length h
              simp only [List.length_cons]
              omega
            · have := utf8Cont3_length h
              simp only [List.length_cons]
              omega

theorem utf8DecodeAux_fuel : ∀ (fuel fuel2 : Nat) (l : List Nat),
    l.length ≤ fuel → l.length ≤ fuel2 → utf8DecodeAux fuel l = utf8DecodeAux fuel2 l := by
  intro fuel
  induction fuel with
  | zero =>
      intro fuel2 l hl _
      have : l = [] := by cases l <;> simp_all
      subst this
      cases fuel2 <;> rfl
  | succ f ih =>
      intro fuel2 l hl hl2
      cases l with
      | nil => cases fuel2 <;> rfl
      | cons b t =>
          cases fuel2 with
          | zero => simp at hl2
          | succ f2 =>
              simp only [utf8DecodeAux]
              cases hone : utf8DecodeOne (b :: t) with
              | none => rfl
              | some p =>
                  obtain ⟨c, rest2⟩ := p
                  have hlt := utf8DecodeOne_length hone
                  simp only [List.length_cons] at hlt hl hl2
                  dsimp only
                  rw [ih f2 rest2 (by omega) (by omega)]

theorem utf8Decode_encodeChar (c : Nat) (h : c < 1114112) (rest : List Nat) :
    utf8Decode (utf8EncodeChar c ++ rest) = (utf8Decode rest).map (fun cs => c :: cs) := by
  have hone := utf8DecodeOne_encodeChar c h rest
  have hne : utf8EncodeChar c ++ rest ≠ [] := by
    have := utf8EncodeChar_ne_nil c
    cases he : utf8EncodeChar c <;> simp_all
  obtain ⟨b, t, hbt⟩ : ∃ b t, utf8EncodeChar c ++ rest = b :: t := by
    cases hl : utf8EncodeChar c ++ rest with
    | nil => exact absurd hl hne
    | cons b t => exact ⟨b, t, rfl⟩
  have hrest_le : rest.length ≤ t.length := by
    have h1 : (utf8EncodeChar c ++ rest).length = t.length + 1 := by rw [hbt]; simp
    have h2 : (utf8EncodeChar c ++ rest).length = (utf8EncodeChar c).length + rest.length := by
      simp
    have h3 : 1 ≤ (utf8EncodeChar c).length := by
      cases he : utf8EncodeChar c with
      | nil => exact absurd he (utf8EncodeChar_ne_nil c)
      | cons x xs => simp
    omega
  unfold utf8Decode
  rw [hbt] at hone ⊢
  simp only [List.length_cons, utf8DecodeAux, hone]
  rw [utf8DecodeAux_fuel t.length rest.length rest hrest_le (le_refl _)]

theorem utf8Decode_encode (cs : List Nat) (h : ∀ c ∈ cs, c < 1114112) :
    utf8Decode (utf8Encode cs) = some cs := by
  induction cs with
  | nil => rfl
  | cons c t ih =>
      simp only [utf8Encode]
      rw [utf8Decode_encodeChar c (h c (by simp)) (utf8Encode t),
        ih (fun x hx => h x (by simp [hx]))]
      rfl

theorem char_toNat_lt (c : Char) : c.toNat < 1114112 := by
  have h := c.valid
  rcases h with h | h
  · show c.val.toNat < 1114112
    omega
  · show c.val.toNat < 1114112
    omega

theorem strDecode_strEncode (s : String) : strDecode (strEncode s) = some s := by
  unfold strDecode strEncode
  rw [utf8Decode_encode (s.data.map Char.toNat)
    (by intro c hc; simp only [List.mem_map] at hc; obtain ⟨ch, _, rfl⟩ := hc;
        exact char_toNat_lt ch)]
  show some (String.mk ((s.data.map Char.toNat).map Char.ofNat)) = some s
  have h2 : ∀ l : List Char, (l.map Char.toNat).map Char.ofNat = l := by
    intro l
    induction l with
    | nil => rfl
    | cons c t ih => simp [ih, Char.ofNat_toNat]
  rw [h2]

/-- C1 counterexample: in the simulated implementation, `connect` called with
no scan preceding it (cached device handle unset) succeeds instead of failing
with the "device not selected" condition. -/
theorem sim_connect_succeeds_without_scan :
    (connect okEnv (initState true) "mock-1").result = .ok () := rfl

/-- C1 (amended): in the real-radio implementation, `connect` called while the
cached device handle is unset always fails with the "device not selected"
condition ("Устройство не выбрано (No Device Cache)"), leaves the state
untouched, starts no protocol step and invokes no callback — it never picks a
device implicitly.  (The simulated implementation instead always succeeds,
with no error path.) -/
theorem connect_no_device_fails_real (env : GattEnv) (st : BTState) (id : String)
    (hsim : st.isSimulation = false) (hdev : st.device = none) :
    connect env st id =
      { trace := [], state := st,
        result := .error "Устройство не выбрано (No Device Cache)", events := [] } := by
  simp [connect, hsim, hdev]

/-- C1 witness: the amended theorem applied to a fresh real-mode service. -/
theorem connect_no_device_fails_real_witness :
    connect okEnv (initState false) "mock-1" =
      { trace := [], state := initState false,
        result := .error "Устройство не выбрано (No Device Cache)", events := [] } :=
  connect_no_device_fails_real okEnv (initState false) "mock-1" rfl rfl

/-- C2 counterexample: `disconnect` with no active session (fresh service,
a disconnect subscriber registered) is not a subscriber-silent no-op — the
subscriber fires, and a second call fires it a second time. -/
theorem disconnect_no_session_fires_subscriber :
    (disconnect (onDisconnect (initState false) 5)).2 = [Event.disconnectFired 5] ∧
    (disconnect ((disconnect (onDisconnect (initState false) 5)).1)).2 =
      [Event.disconnectFired 5] := ⟨rfl, rfl⟩

/-- C2 (amended): every `disconnect` call runs the same cleanup: it clears the
four handle fields and invokes the registered disconnect subscriber exactly
once per call — including when no session is active, and again on a repeated
call or a later link-loss signal, so two calls fire the subscriber twice
total; only the state cleanup itself is idempotent. -/
theorem disconnect_cleanup_per_call (st : BTState) :
    ((disconnect st).1.device = none ∧ (disconnect st).1.server = none ∧
     (disconnect st).1.rxCharacteristic = none ∧
     (disconnect st).1.txCharacteristic = none) ∧
    (disconnect st).2 =
      (match st.onDisconnectCallback with
       | some cb => [Event.disconnectFired cb]
       | none => []) ∧
    disconnect ((disconnect st).1) = ((disconnect st).1, (disconnect st).2) ∧
    handleDisconnect ((disconnect st).1) = ((disconnect st).1, (disconnect st).2) := by
  refine ⟨⟨rfl, rfl, rfl, rfl⟩, rfl, rfl, rfl⟩

/-- C3 counterexample: a real-mode connect attempt failing at protocol step 3
(characteristic resolution) does notify the registered disconnect subscriber —
the teardown runs the shared cleanup, which fires it. -/
theorem connect_step3_failure_fires_subscriber :
    (connectToDeviceObject step3FailEnv (onDisconnect (initState false) 9)
        { id := "dev-1", name := some "BlueChat" }).events =
      [Event.disconnectFired 9] := rfl

/-- C3 (amended): whenever a real-mode connect attempt fails (at any protocol
step), the session is fully torn down — device, server and both characteristic
handles all cleared — and the error is re-signaled to the caller of connect;
the teardown additionally invokes the registered disconnect subscriber once,
because it is the shared `disconnect`/`cleanup` routine, which always fires
it. -/
theorem connect_failure_full_teardown (env : GattEnv) (st : BTState) (d : Device)
    (e : String) (h : (connectToDeviceObject env st d).result = .error e) :
    (connectToDeviceObject env st d).state.device = none ∧
    (connectToDeviceObject env st d).state.server = none ∧
    (connectToDeviceObject env st d).state.rxCharacteristic = none ∧
    (connectToDeviceObject env st d).state.txCharacteristic = none ∧
    (connectToDeviceObject env st d).events =
      (match st.onDisconnectCallback with
       | some cb => [Event.disconnectFired cb]
       | none => []) := by
  revert h
  unfold connectToDeviceObject
  split
  · intro h; exact ⟨rfl, rfl, rfl, rfl, rfl⟩
  · split
    · intro h; exact ⟨rfl, rfl, rfl, rfl, rfl⟩
    · split
      · intro h; exact ⟨rfl, rfl, rfl, rfl, rfl⟩
      · split
        · intro h; exact ⟨rfl, rfl, rfl, rfl, rfl⟩
        · split
          · intro h; exact ⟨rfl, rfl, rfl, rfl, rfl⟩
          · intro h; exact absurd h (by simp)

/-- C3 witness: the amended theorem applied to a step-3-failing oracle and a
service with disconnect subscriber 4 registered. -/
theorem connect_failure_full_teardown_witness :
    (connectToDeviceObject step3FailEnv (onDisconnect (initState false) 4)
        { id := "d", name := none }).state.device = none ∧
    (connectToDeviceObject step3FailEnv (onDisconnect (initState false) 4)
        { id := "d", name := none }).state.server = none ∧
    (connectToDeviceObject step3FailEnv (onDisconnect (initState false) 4)
        { id := "d", name := none }).state.rxCharacteristic = none ∧
    (connectToDeviceObject step3FailEnv (onDisconnect (initState false) 4)
        { id := "d", name := none }).state.txCharacteristic = none ∧
    (connectToDeviceObject step3FailEnv (onDisconnect (initState false) 4)
        { id := "d", name := none }).events = [Event.disconnectFired 4] :=
  connect_failure_full_teardown step3FailEnv (onDisconnect (initState false) 4)
    { id := "d", name := none } "NotFoundError" rfl

/-- C4 counterexample: in the simulated implementation, `send` with no active
session succeeds and (here, with a favorable random draw) invokes the
registered message subscriber with a fabricated reply, instead of failing
with "not connected". -/
theorem sim_send_succeeds_and_delivers :
    (send okEnv (onMessage (initState true) 7) "hello" true 0).2.1 = .ok () ∧
    (send okEnv (onMessage (initState true) 7) "hello" true 0).2.2 =
      [Event.msgDelivered 7 "Привет! Связь стабильная."] := ⟨rfl, rfl⟩

/-- C4 (amended): in the real-radio implementation, `send` called while no
session is active (no write characteristic held) fails with the
"not connected" condition ("Нет соединения"), leaves the state unchanged and
never invokes the message subscriber.  (The simulated implementation instead
always succeeds and may deliver a fabricated reply.) -/
theorem send_not_connected_real (env : GattEnv) (st : BTState) (text : String)
    (coin : Bool) (pick : Nat) (hsim : st.isSimulation = false)
    (hrx : st.rxCharacteristic = none) :
    send env st text coin pick = (st, .error "Нет соединения", []) := by
  simp [send, hsim, hrx]

/-- C4 witness: the amended theorem applied to a fresh real-mode service. -/
theorem send_not_connected_real_witness :
    send okEnv (initState false) "hello" true 0 =
      (initState false, .error "Нет соединения", []) :=
  send_not_connected_real okEnv (initState false) "hello" true 0 rfl rfl

/-- C5: for every real-mode connect attempt, the protocol steps execute
strictly sequentially in the fixed order (open GATT, resolve service, resolve
the two characteristics, enable notifications, register the frame handler):
the recorded trace is always an initial segment of that five-step sequence —
so step N+1 is never started unless steps 1..N were — and it is the full
sequence exactly when the attempt succeeds. -/
theorem connect_steps_strict_order (env : GattEnv) (st : BTState) (d : Device) :
    ∃ k, k ≤ 5 ∧ (connectToDeviceObject env st d).trace = connectSteps.take k ∧
      ((connectToDeviceObject env st d).result = .ok () ↔ k = 5) := by
  unfold connectToDeviceObject
  split
  · exact ⟨1, by omega, rfl, by simp⟩
  · split
    · exact ⟨2, by omega, rfl, by simp⟩
    · split
      · exact ⟨3, by omega, rfl, by simp⟩
      · split
        · exact ⟨3, by omega, rfl, by simp⟩
        · split
          · exact ⟨4, by omega, rfl, by simp⟩
          · exact ⟨5, by omega, rfl, by simp⟩


/-- C6: round-trip — for every string, a notification carrying its UTF-8
encoding decodes back to the exact original string (decode of encode is the
identity) and is delivered verbatim to the registered message subscriber
exactly once per notification. -/
theorem notification_roundtrip_delivery (s : String) (st : BTState) (cb : Nat)
    (h : st.onMessageCallback = some cb) :
    handleCharacteristicValueChanged st (strEncode s) = [Event.msgDelivered cb s] := by
  unfold handleCharacteristicValueChanged
  rw [strDecode_strEncode, h]

/-- C6 witness: a connected service with subscriber 2 receives the multi-byte
string "Привет, BlueChat! ✓" intact, exactly once. -/
theorem notification_roundtrip_delivery_witness :
    handleCharacteristicValueChanged (onMessage (initState false) 2)
        (strEncode "Привет, BlueChat! ✓") =
      [Event.msgDelivered 2 "Привет, BlueChat! ✓"] :=
  notification_roundtrip_delivery "Привет, BlueChat! ✓" (onMessage (initState false) 2) 2 rfl

/-- C7 counterexample: the fabricated entries returned by the simulated
`scan` carry no `status` property at all (reading it yields `undefined`),
so it is not the case that every entry has the "available" connection
status. -/
theorem mock_scan_entries_lack_status :
    ¬ ∀ e ∈ MOCK_DEVICES, e.status = some "available" := by decide

/-- C7 (amended): every `scan` call in simulated mode returns exactly the
fixed fabricated list, with no state change and independent of the platform
picker: 3 entries, each with a non-empty name and a (negative) numeric
signal-strength value; the "available" connection status is attached to each
entry by the scanner view's formatting step, not by the service's returned
list. -/
theorem sim_scan_fixed_list (st : BTState) (pick : Except String Device)
    (hsim : st.isSimulation = true) :
    scan st pick = (st, .ok MOCK_DEVICES) ∧
    MOCK_DEVICES.length = 3 ∧
    (∀ e ∈ MOCK_DEVICES, e.name ≠ "" ∧ e.rssi < 0 ∧
      (formatDevice e).status = "available") := by
  refine ⟨by simp [scan, hsim], rfl, by decide⟩

/-- C7 witness: the amended theorem applied to a fresh simulated service
(even when the platform picker would have thrown, the mock list is
returned). -/
theorem sim_scan_fixed_list_witness :
    scan (initState true) (.error "NotFoundError") = (initState true, .ok MOCK_DEVICES) :=
  (sim_scan_fixed_list (initState true) (.error "NotFoundError") rfl).1

/-- C8: `onMessage` and `onDisconnect` are single-slot registrations: after
any sequence of registrations, the slot holds exactly the last registered
callback, an inbound frame is delivered only to it, and link-loss fires only
it — every earlier registration is silently dropped. -/
theorem single_slot_registration (st : BTState) (cbs ds : List Nat) (c dcb : Nat)
    (bytes : List Nat) :
    (onMessageSeq st (cbs ++ [c])).onMessageCallback = some c ∧
    (onDisconnectSeq st (ds ++ [dcb])).onDisconnectCallback = some dcb ∧
    handleCharacteristicValueChanged (onMessageSeq st (cbs ++ [c])) bytes =
      (match strDecode bytes with
       | some t => [Event.msgDelivered c t]
       | none => []) ∧
    (handleDisconnect (onDisconnectSeq st (ds ++ [dcb]))).2 =
      [Event.disconnectFired dcb] := by
  have h1 : (onMessageSeq st (cbs ++ [c])).onMessageCallback = some c := by
    rw [onMessageSeq, List.foldl_append]
    rfl
  have h2 : (onDisconnectSeq st (ds ++ [dcb])).onDisconnectCallback = some dcb := by
    rw [onDisconnectSeq, List.foldl_append]
    rfl
  refine ⟨h1, h2, ?_, ?_⟩
  · unfold handleCharacteristicValueChanged
    rw [h1]
  · unfold handleDisconnect cleanup
    rw [h2]

/-- C9: real-mode `connect` never reads its `deviceId` argument — whenever a
device handle is cached, `connect(id1)` and `connect(id2)` produce identical
outcomes for every pair of identifiers, the connection proceeding against the
cached device from the most recent scan. -/
theorem connect_ignores_device_id (env : GattEnv) (st : BTState) (id1 id2 : String)
    (hsim : st.isSimulation = false) (hdev : st.device.isSome) :
    connect env st id1 = connect env st id2 := rfl

/-- C9 witness: two different identifiers, same outcome, on a real-mode
service holding a cached device. -/
theorem connect_ignores_device_id_witness :
    connect okEnv { initState false with device := some { id := "real-id", name := some "BlueChat" } }
        "real-id" =
      connect okEnv { initState false with device := some { id := "real-id", name := some "BlueChat" } }
        "some-other-id" :=
  connect_ignores_device_id okEnv
    { initState false with device := some { id := "real-id", name := some "BlueChat" } }
    "real-id" "some-other-id" rfl rfl

/-- C10: every successful real-mode scan returns a list of exactly one
descriptor (never zero, never more), whose `rssi` is always the constant -50
and whose name is the placeholder "Неизвестное устройство" when the platform
reports no name; a zero-length result is unreachable on the real path, where
absence of a device surfaces only as a thrown error. -/
theorem real_scan_single_descriptor (st st2 : BTState) (pick : Except String Device)
    (l : List ScanEntry) (hsim : st.isSimulation = false)
    (h : scan st pick = (st2, .ok l)) :
    l.length = 1 ∧ (∀ e ∈ l, e.rssi = -50) ∧
    (∀ d, pick = .ok d → d.name = none →
      ∀ e ∈ l, e.name = "Неизвестное устройство") := by
  cases pick with
  | error e => simp [scan, hsim] at h
  | ok d =>
      unfold scan at h
      rw [hsim] at h
      simp only [Bool.false_eq_true, if_false] at h
      rw [Prod.mk.injEq] at h
      obtain ⟨-, h2⟩ := h
      rw [Except.ok.injEq] at h2
      subst h2
      refine ⟨rfl, ?_, ?_⟩
      · intro e he
        rw [List.mem_singleton] at he
        subst he
        rfl
      · intro d2 hd2 hn e he
        injection hd2 with hdd
        subst hdd
        rw [List.mem_singleton] at he
        subst he
        dsimp only
        rw [hn]

/-- C10 witness: a real-mode scan that picked a nameless device yields exactly
one descriptor. -/
theorem real_scan_single_descriptor_witness :
    ([({ id := "d-1", name := "Неизвестное устройство", rssi := -50 } : ScanEntry)]).length
      = 1 :=
  (real_scan_single_descriptor (initState false)
    { initState false with device := some { id := "d-1", name := none } }
    (.ok { id := "d-1", name := none })
    [{ id := "d-1", name := "Неизвестное устройство", rssi := -50 }] rfl rfl).1

end BlueChat
